import Mathlib

/-!
Verification of the NotifyHub notification delivery pipeline.

This file gives a shallow embedding of the pipeline's core logic:
the webhook and email dispatch workers (`webhook-worker.processor.ts`,
`email-worker.processor.ts`), the BullMQ retry/backoff driving loop as
configured by `QueueService.addEmailJob` / `addWebhookJob`
(`attempts: 3`, exponential backoff with base delay 2000 ms), the
dead-letter move (`QueueService.moveToDeadLetterQueue`), the admission
guards (`QuotaGuard`, `ApiKeyGuard`, `CustomerRateLimitGuard` /
`UserRateLimitGuard`), and the idempotency-keyed job creation.

Machine integers are modelled as `Nat` (the counters and timestamps in
the source are non-negative and far from any overflow boundary), time
as milliseconds since the Unix epoch (the value of `Date.getTime()`),
and fallible steps return explicit outcome data.  Fault injection flags
model the places where a persistence call can throw.
-/

namespace NotifyHub

/-- Job lifecycle status (Prisma `JobStatus`): QUEUED, PROCESSING, COMPLETED, FAILED. -/
inductive JobStatus where
  | queued
  | processing
  | completed
  | failed
deriving DecidableEq

/-- Delivery-log entry status (Prisma `DeliveryStatus`): SUCCESS or FAILED. -/
inductive DeliveryStatus where
  | success
  | failed
deriving DecidableEq

/-- Behavior of the webhook target for one HTTP request: it answered with a status
code and body, or the request failed at the network level (timeout after 30 s,
connection error, ...). -/
inductive HttpOutcome where
  | response (status : Nat) (body : String)
  | netError (message : String)
deriving DecidableEq

/-- The `validateStatus` predicate passed to axios in
`WebhookWorkerProcessor.process`: `status >= 200 && status < 300`. -/
def validateStatus (status : Nat) : Bool :=
  decide (200 ≤ status) && decide (status < 300)

/-- The axios error raised when the request does not satisfy `validateStatus`:
either the target responded (`error.response` is set, with status and data) or a
network-level failure occurred (`error.response` is undefined). -/
inductive AttemptError where
  | httpError (status : Nat) (body : String)
  | netError (message : String)
deriving DecidableEq

/-- The message axios attaches to a status rejection. -/
def axiosStatusMessage (status : Nat) : String :=
  "Request failed with status code " ++ toString status

/-- `error.message` of an axios error. -/
def AttemptError.message : AttemptError → String
  | .httpError st _ => axiosStatusMessage st
  | .netError m => m

/-- The `error.response` snapshot (`{statusCode, body}`) recorded by the worker,
`none` when the error carries no response. -/
def AttemptError.responseSnapshot : AttemptError → Option (Nat × String)
  | .httpError st body => some (st, body)
  | .netError _ => none

/-- Resolution of the axios request given the target's behavior: the promise
resolves exactly when `validateStatus` holds of the response status. -/
def axiosResult (o : HttpOutcome) : Except AttemptError (Nat × String) :=
  match o with
  | .response st body =>
    if validateStatus st then .ok (st, body) else .error (.httpError st body)
  | .netError m => .error (.netError m)

/-- Whether the webhook attempt succeeds (the axios promise resolves). -/
def webhookAttemptSucceeds (o : HttpOutcome) : Bool :=
  match axiosResult o with
  | .ok _ => true
  | .error _ => false

/-- `WebhookWorkerProcessor.shouldRetryWebhook`: returns `false` when
`error.response` exists with `400 <= status < 500`, otherwise `true`. -/
def shouldRetryWebhook (e : AttemptError) : Bool :=
  match e with
  | .httpError st _ =>
    if decide (400 ≤ st) && decide (st < 500) then false else true
  | .netError _ => true

/-- `QUEUE_PRIORITIES` from `queue.constants.ts`. -/
def QUEUE_PRIORITIES.CRITICAL : Nat := 10

/-- `QUEUE_PRIORITIES.NORMAL` from `queue.constants.ts`. -/
def QUEUE_PRIORITIES.NORMAL : Nat := 5

/-- `QUEUE_PRIORITIES.LOW` from `queue.constants.ts`. -/
def QUEUE_PRIORITIES.LOW : Nat := 1

/-- A delivery-log row written by `prisma.deliveryLog.create`. -/
structure LedgerEntry where
  jobId : String
  attempt : Nat
  status : DeliveryStatus
  errorMessage : Option String
  /-- webhook response snapshot `{statusCode, body}`, when present -/
  response : Option (Nat × String)
  /-- provider response recorded by the email worker on success -/
  providerResponse : Option String
deriving DecidableEq

/-- The record added to the `notifications:failed` queue by
`QueueService.moveToDeadLetterQueue` (original job data spread in, plus the
failure reason and low priority). `error := none` models a JS `undefined` reason. -/
structure DLQEntry where
  jobId : String
  error : Option String
  priority : Nat
deriving DecidableEq

/-- `QueueService.moveToDeadLetterQueue`: adds the job to the failed queue with
LOW priority; any error thrown by the add is caught and logged inside the method
and never rethrown (`dlqAddFails` injects such an error, in which case no entry
is recorded but the caller continues normally). -/
def moveToDeadLetterQueue (jobId : String) (reason : Option String)
    (dlqAddFails : Bool) : Option DLQEntry :=
  if dlqAddFails then none
  else some { jobId := jobId, error := reason, priority := QUEUE_PRIORITIES.LOW }

/-- Fault-injection points for the persistence calls a worker makes while
handling one attempt. -/
structure FaultEnv where
  /-- the `prisma.deliveryLog.create` call throws -/
  ledgerCreateFails : Bool
  /-- the `failedQueue.add` inside `moveToDeadLetterQueue` throws -/
  dlqAddFails : Bool
deriving DecidableEq

/-- The fault-free environment. -/
def noFaults : FaultEnv := { ledgerCreateFails := false, dlqAddFails := false }

/-- Observable effects of one `process` invocation on one attempt. -/
structure ProcessResult where
  /-- the `attempts` column written at the start (`job.attemptsMade + 1`) -/
  attemptsRecorded : Nat
  /-- `job.status` after the attempt finishes -/
  jobStatus : JobStatus
  /-- the delivery-log entry written, if the write happened and succeeded -/
  ledgerEntry : Option LedgerEntry
  /-- the dead-letter entry recorded, if any -/
  dlqEntry : Option DLQEntry
  /-- whether `process` let an exception propagate (BullMQ then counts the
  attempt as failed and schedules a retry while attempts remain) -/
  threw : Bool
deriving DecidableEq

/-- `WebhookWorkerProcessor.process`: mark PROCESSING and record the attempt
number, perform the HTTP request; on success mark COMPLETED and log a success
entry; on failure log a failure entry, then either move to the dead-letter queue
and mark FAILED (terminal error, or third attempt) or rethrow so BullMQ retries.
The `deliveryLog.create` calls are not guarded by any inner try/catch in the
source, so an exception there propagates out of `process` immediately. -/
def webhookProcess (jobId : String) (attemptsMade : Nat) (outcome : HttpOutcome)
    (env : FaultEnv) : ProcessResult :=
  match axiosResult outcome with
  | .ok (st, body) =>
    if env.ledgerCreateFails then
      { attemptsRecorded := attemptsMade + 1, jobStatus := .completed,
        ledgerEntry := none, dlqEntry := none, threw := true }
    else
      let entry : LedgerEntry :=
        { jobId := jobId, attempt := attemptsMade + 1, status := .success,
          errorMessage := none, response := some (st, body),
          providerResponse := none }
      { attemptsRecorded := attemptsMade + 1, jobStatus := .completed,
        ledgerEntry := some entry, dlqEntry := none, threw := false }
  | .error e =>
    if env.ledgerCreateFails then
      { attemptsRecorded := attemptsMade + 1, jobStatus := .processing,
        ledgerEntry := none, dlqEntry := none, threw := true }
    else
      let entry : LedgerEntry :=
        { jobId := jobId, attempt := attemptsMade + 1, status := .failed,
          errorMessage := some e.message, response := e.responseSnapshot,
          providerResponse := none }
      let shouldRetry := shouldRetryWebhook e
      if !shouldRetry || decide (2 ≤ attemptsMade) then
        let dlq := moveToDeadLetterQueue jobId (some e.message) env.dlqAddFails
        if !shouldRetry then
          { attemptsRecorded := attemptsMade + 1, jobStatus := .failed,
            ledgerEntry := some entry, dlqEntry := dlq, threw := false }
        else
          { attemptsRecorded := attemptsMade + 1, jobStatus := .failed,
            ledgerEntry := some entry, dlqEntry := dlq, threw := true }
      else
        { attemptsRecorded := attemptsMade + 1, jobStatus := .processing,
          ledgerEntry := some entry, dlqEntry := none, threw := true }

/-- `EmailJobData` from `queue.service.ts` (`from` is a reserved word in Lean,
rendered `fromAddr`). -/
structure EmailJobData where
  jobId : String
  customerId : String
  /-- `to` in the source (`to` is a reserved token here) -/
  toAddr : String
  subject : String
  body : String
  /-- `from` in the source -/
  fromAddr : Option String
deriving DecidableEq

/-- Behavior of the mail provider for one `sendEmail` call. -/
inductive EmailOutcome where
  | accepted (providerResponse : String)
  | failed (message : String)
deriving DecidableEq

/-- Arguments handed to `SendGridService.sendEmail` (`to`/`from` renamed as in
`EmailJobData`). -/
structure EmailSendCall where
  toAddr : String
  subject : String
  body : String
  fromAddr : String
deriving DecidableEq

/-- The `from` argument handed to the provider:
`from || 'noreply@notifyhub.com'` (email-worker.processor.ts line 43).
The JS `||` falls through to the default for `undefined` and also for the
falsy empty string. -/
def effectiveFrom (fromAddr : Option String) : String :=
  match fromAddr with
  | none => "noreply@notifyhub.com"
  | some s => if s = "" then "noreply@notifyhub.com" else s

/-- Result of one `EmailWorkerProcessor.process` invocation: the provider call
it issued and the persistence/flow effects. -/
structure EmailProcessResult where
  sendCall : EmailSendCall
  result : ProcessResult
deriving DecidableEq

/-- `EmailWorkerProcessor.process`: mark PROCESSING, hand the payload to
`SendGridService.sendEmail` (with the `from` default applied), then mirror the
webhook worker's bookkeeping, except that there is no failure classification:
every failure rethrows, and the dead-letter move happens on the third attempt
(`job.attemptsMade >= 2`). -/
def emailProcess (data : EmailJobData) (attemptsMade : Nat)
    (outcome : EmailOutcome) (env : FaultEnv) : EmailProcessResult :=
  let call : EmailSendCall :=
    { toAddr := data.toAddr, subject := data.subject, body := data.body,
      fromAddr := effectiveFrom data.fromAddr }
  match outcome with
  | .accepted resp =>
    if env.ledgerCreateFails then
      let r : ProcessResult :=
        { attemptsRecorded := attemptsMade + 1, jobStatus := .completed,
          ledgerEntry := none, dlqEntry := none, threw := true }
      { sendCall := call, result := r }
    else
      let entry : LedgerEntry :=
        { jobId := data.jobId, attempt := attemptsMade + 1, status := .success,
          errorMessage := none, response := none, providerResponse := some resp }
      let r : ProcessResult :=
        { attemptsRecorded := attemptsMade + 1, jobStatus := .completed,
          ledgerEntry := some entry, dlqEntry := none, threw := false }
      { sendCall := call, result := r }
  | .failed msg =>
    if env.ledgerCreateFails then
      let r : ProcessResult :=
        { attemptsRecorded := attemptsMade + 1, jobStatus := .processing,
          ledgerEntry := none, dlqEntry := none, threw := true }
      { sendCall := call, result := r }
    else
      let entry : LedgerEntry :=
        { jobId := data.jobId, attempt := attemptsMade + 1, status := .failed,
          errorMessage := some msg, response := none, providerResponse := none }
      if decide (2 ≤ attemptsMade) then
        let r : ProcessResult :=
          { attemptsRecorded := attemptsMade + 1, jobStatus := .failed,
            ledgerEntry := some entry,
            dlqEntry := moveToDeadLetterQueue data.jobId (some msg) env.dlqAddFails,
            threw := true }
        { sendCall := call, result := r }
      else
        let r : ProcessResult :=
          { attemptsRecorded := attemptsMade + 1, jobStatus := .processing,
            ledgerEntry := some entry, dlqEntry := none, threw := true }
        { sendCall := call, result := r }

/-- `attempts: 3` in `QueueService.addEmailJob` / `addWebhookJob`
(also `RETRY_CONFIG.MAX_ATTEMPTS` in `queue.constants.ts`). -/
def MAX_ATTEMPTS : Nat := 3

/-- BullMQ's built-in exponential backoff with the configured base delay
2000 ms: the wait before the next attempt after `attemptsMade` failed attempts
is `2000 * 2 ^ (attemptsMade - 1)` milliseconds. -/
def backoffDelay (attemptsMade : Nat) : Nat := 2000 * 2 ^ (attemptsMade - 1)

/-- One attempt as driven by BullMQ: its 1-based number, the delay BullMQ
waited before starting it, and the worker's effects. -/
structure AttemptRec where
  attemptNumber : Nat
  delayBefore : Nat
  result : ProcessResult
deriving DecidableEq

/-- The BullMQ driving loop for one job in its lane: run the processor on the
job; while `process` throws and fewer than `MAX_ATTEMPTS` attempts have been
made, wait the exponential backoff delay and run the same job again (the retry
stays in the job's original queue). `fuel` bounds the recursion and is
instantiated with `MAX_ATTEMPTS`. -/
def runAttemptsFrom (proc : Nat → ProcessResult) (attemptsMade fuel : Nat) :
    List AttemptRec :=
  match fuel with
  | 0 => []
  | fuel' + 1 =>
    let r := proc attemptsMade
    let a : AttemptRec :=
      { attemptNumber := attemptsMade + 1,
        delayBefore := if attemptsMade = 0 then 0 else backoffDelay attemptsMade,
        result := r }
    if r.threw && decide (attemptsMade + 1 < MAX_ATTEMPTS) then
      a :: runAttemptsFrom proc (attemptsMade + 1) fuel'
    else [a]

/-- Full lifecycle of one webhook job: the target's behavior on the k-th
attempt is `outcomes k` (0-based). -/
def runWebhookJob (jobId : String) (outcomes : Nat → HttpOutcome) :
    List AttemptRec :=
  runAttemptsFrom (fun m => webhookProcess jobId m (outcomes m) noFaults) 0
    MAX_ATTEMPTS

/-- Full lifecycle of one email job. -/
def runEmailJob (data : EmailJobData) (outcomes : Nat → EmailOutcome) :
    List AttemptRec :=
  runAttemptsFrom (fun m => (emailProcess data m (outcomes m) noFaults).result) 0
    MAX_ATTEMPTS

/-- The legacy `@nestjs/bull` webhook worker variant
(`WebhookWorkerProcessor.processWebhookJob`, src/unnamed/part_002).  Its prisma
persistence steps are commented out in the source; the dead-letter call passes
`error.mesnsage`, a misspelling of `message`, which in JS evaluates to
`undefined` — modelled as `none`.  Returns the dead-letter entry recorded (if
any) and whether the handler rethrew. -/
def processWebhookJobLegacy (jobId : String) (attemptsMade : Nat)
    (outcome : HttpOutcome) : Option DLQEntry × Bool :=
  match axiosResult outcome with
  | .ok _ => (none, false)
  | .error e =>
    let shouldRetry := shouldRetryWebhook e
    if !shouldRetry || decide (2 ≤ attemptsMade) then
      let dlq := moveToDeadLetterQueue jobId none false
      if !shouldRetry then (dlq, false) else (dlq, true)
    else (none, true)

/-! ## Admission gate: quota -/

/-- The tenant fields the guards read and write
(Prisma `customer`: `usageCount`, `monthlyLimit`, `usageResetAt`,
`billingCycleStartAt`).  Timestamps are ms since the Unix epoch. -/
structure Customer where
  usageCount : Nat
  monthlyLimit : Nat
  usageResetAt : Nat
  billingCycleStartAt : Nat
deriving DecidableEq

/-- Outcome of an admission guard for one request. -/
inductive GateDecision where
  | allowed
  /-- `ForbiddenException` (HTTP 403) carrying current usage, limit, reset date -/
  | quotaExceeded (usage : Nat) (limit : Nat) (resetAt : Nat)
  /-- `HttpException` TOO_MANY_REQUESTS (HTTP 429) carrying the limit -/
  | rateLimited (limit : Nat)
deriving DecidableEq

/-- HTTP status code carried by a denial. -/
def GateDecision.httpStatus : GateDecision → Option Nat
  | .allowed => none
  | .quotaExceeded _ _ _ => some 403
  | .rateLimited _ => some 429

/-- Milliseconds per day. -/
def MS_PER_DAY : Nat := 86400000

/-- Days since 1970-01-01 of the Gregorian civil date `y-m-d` (`m` 1-based),
for dates from 1970 on (Howard Hinnant's days-from-civil computation,
restricted to the post-epoch range where it stays in `Nat`). -/
def daysFromCivil (y m d : Nat) : Nat :=
  let ys := if m ≤ 2 then y - 1 else y
  let era := ys / 400
  let yoe := ys - era * 400
  let mp := (m + 9) % 12
  let doy := (153 * mp + 2) / 5 + d - 1
  let doe := yoe * 365 + yoe / 4 - yoe / 100 + doy
  era * 146097 + doe - 719468

/-- Civil date `(y, m, d)` (`m` 1-based) from days since 1970-01-01
(Hinnant's civil-from-days computation, post-epoch range). -/
def civilFromDays (z : Nat) : Nat × Nat × Nat :=
  let zs := z + 719468
  let era := zs / 146097
  let doe := zs % 146097
  let yoe := (doe - doe / 1460 + doe / 36524 - doe / 146096) / 365
  let y := yoe + era * 400
  let doy := doe - (365 * yoe + yoe / 4 - yoe / 100)
  let mp := (5 * doy + 2) / 153
  let d := doy - (153 * mp + 2) / 5 + 1
  let m := if mp < 10 then mp + 3 else mp - 9
  (if m ≤ 2 then y + 1 else y, m, d)

/-- `Date.prototype.getUTCFullYear` of a timestamp. -/
def utcYear (ms : Nat) : Nat := (civilFromDays (ms / MS_PER_DAY)).1

/-- `Date.prototype.getUTCMonth` (0-based) of a timestamp. -/
def utcMonth0 (ms : Nat) : Nat := (civilFromDays (ms / MS_PER_DAY)).2.1 - 1

/-- `Date.UTC(y, mo, 1)` for a 0-based month index `mo` that may be 12
(JS normalizes the overflow into the next year). -/
def dateUTCMonthStart (y mo : Nat) : Nat :=
  daysFromCivil (y + mo / 12) (mo % 12 + 1) 1 * MS_PER_DAY

/-- `QuotaGuard.getNextResetDate`:
`Date.UTC(now.getUTCFullYear(), now.getUTCMonth() + 1, 1)` — midnight UTC on
the first day of the month after `now`. -/
def getNextResetDate (now : Nat) : Nat :=
  dateUTCMonthStart (utcYear now) (utcMonth0 now + 1)

/-- `QuotaGuard.canActivate` (quota.guard.ts lines 43-91): if
`usageResetAt < now`, reset usage to 0, advance `usageResetAt` to
`getNextResetDate` and restart the billing cycle; then deny with a 403 if
`usageCount >= monthlyLimit` (reporting usage, limit and reset date), otherwise
increment `usageCount` (a prisma atomic `increment: 1`) and allow. -/
def quotaCanActivate (now : Nat) (c : Customer) : GateDecision × Customer :=
  let c1 :=
    if c.usageResetAt < now then
      { c with usageCount := 0, usageResetAt := getNextResetDate now,
               billingCycleStartAt := now }
    else c
  if c1.monthlyLimit ≤ c1.usageCount then
    (GateDecision.quotaExceeded c1.usageCount c1.monthlyLimit c1.usageResetAt, c1)
  else
    (GateDecision.allowed, { c1 with usageCount := c1.usageCount + 1 })

/-- The usage portion of `ApiKeyGuard.canActivate` (api-key.guard.ts lines
71-93), which runs before `QuotaGuard` and attaches the customer to the
request.  Note the order in the source: the `usageCount >= monthlyLimit` check
comes BEFORE the lazy reset.  `nextReset` abstracts this guard's
`getNextResetDate()`, which is computed in the server's local timezone. -/
def apiKeyGuardCheck (now nextReset : Nat) (c : Customer) :
    GateDecision × Customer :=
  if c.monthlyLimit ≤ c.usageCount then
    (GateDecision.quotaExceeded c.usageCount c.monthlyLimit c.usageResetAt, c)
  else if c.usageResetAt < now then
    (GateDecision.allowed, { c with usageCount := 0, usageResetAt := nextReset })
  else
    (GateDecision.allowed, c)

/-- `N` consecutive requests through `QuotaGuard` at time `now`: the list of
decisions and the final customer state. -/
def quotaRun (now : Nat) (c : Customer) : Nat → List GateDecision × Customer
  | 0 => ([], c)
  | n + 1 =>
    let p := quotaCanActivate now c
    let q := quotaRun now p.2 n
    (p.1 :: q.1, q.2)

/-- The prisma `usageCount: { increment: 1 }` write: a single storage-level
atomic increment. -/
def dbIncrement (u : Nat) : Nat := u + 1

/-! ## Admission gate: per-minute rate limit -/

/-- The Redis cell backing one tenant's rate counter: absent, or a value with
an optional absolute expiry time (in seconds; `none` = no TTL). -/
abbrev RateStore := Option (Nat × Option Nat)

/-- The counter value `redis.get` observes at time `t` (an expired key reads
as absent, which the guard parses as count 0). -/
def rateGet (t : Nat) (st : RateStore) : Nat :=
  match st with
  | none => 0
  | some (c, none) => c
  | some (c, some e) => if t < e then c else 0

/-- `redis.set(key, '1', 60)`: value 1, expiring 60 seconds from now. -/
def redisSet1 (t : Nat) : RateStore := some (1, some (t + 60))

/-- Redis `INCR` at time `t`: increments a live key preserving its TTL;
creates an absent or expired key as 1 with no TTL. -/
def redisIncr (t : Nat) (st : RateStore) : RateStore :=
  match st with
  | none => some (1, none)
  | some (c, none) => some (c + 1, none)
  | some (c, some e) => if t < e then some (c + 1, some e) else some (1, none)

/-- The write the guard performs after reading `count`: deny (no write) when
`count >= limit`; `set(key, '1', 60)` when `count === 0`; otherwise `INCR`. -/
def rateWriteStep (limit t count : Nat) (st : RateStore) : Bool × RateStore :=
  if limit ≤ count then (false, st)
  else if count = 0 then (true, redisSet1 t)
  else (true, redisIncr t st)

/-- `checkRateLimit` (CustomerRateLimitGuard.checkRateLimit and
UserRateLimitGuard.checkRateLimit, identical logic): `redis.get`, deny if the
parsed count has reached the limit, otherwise `set '1'` with a 60 s TTL on a
fresh window or `INCR` within a live window.  The read and the write are two
separate Redis commands. -/
def checkRateLimit (limit t : Nat) (st : RateStore) : Bool × RateStore :=
  rateWriteStep limit t (rateGet t st) st

/-- `checkRateLimit` including its catch block: any error from the counter
store makes the guard return `true` (fail open). -/
def checkRateLimitF (storeFails : Bool) (limit t : Nat) (st : RateStore) :
    Bool × RateStore :=
  if storeFails then (true, st) else checkRateLimit limit t st

/-- `CustomerRateLimitGuard.canActivate`: runs the check and converts a denial
into an HTTP 429 carrying the plan's limit. -/
def customerRateLimitGuard (storeFails : Bool) (limit t : Nat)
    (st : RateStore) : GateDecision × RateStore :=
  let p := checkRateLimitF storeFails limit t st
  if p.1 then (GateDecision.allowed, p.2) else (GateDecision.rateLimited limit, p.2)

/-- State of the rate cell after the first `k` requests, request `i` arriving
at time `times i`, starting from an absent key. -/
def rateStateAfter (limit : Nat) (times : Nat → Nat) : Nat → RateStore
  | 0 => none
  | k + 1 => (checkRateLimit limit (times k) (rateStateAfter limit times k)).2

/-- Decision for request `k` (0-based) in that sequence. -/
def rateDecision (limit : Nat) (times : Nat → Nat) (k : Nat) : Bool :=
  (checkRateLimit limit (times k) (rateStateAfter limit times k)).1

/-- Two same-tenant requests racing on an absent rate cell, interleaved as
read-A, read-B, write-A, write-B (each request is a separate `get` followed by
a separate `set`/`INCR`, as in the source): returns (A admitted, B admitted,
counter value finally recorded). -/
def twoRacingRateRequests (limit t : Nat) : Bool × Bool × Nat :=
  let st0 : RateStore := none
  let cA := rateGet t st0
  let cB := rateGet t st0
  let pA := rateWriteStep limit t cA st0
  let pB := rateWriteStep limit t cB pA.2
  (pA.1, pB.1, rateGet t pB.2)

/-! ## Idempotency-keyed job creation -/

/-- A row of the `jobs` table as far as the idempotency constraint sees it:
the unique index `jobs_customer_id_idempotency_key_key` (migration in
src/unnamed/part_006) covers `(customer_id, idempotency_key)`. -/
structure JobRec where
  customerId : String
  idempotencyKey : Option String
  jobId : Nat
deriving DecidableEq

/-- Whether a stored job occupies the `(customer, key)` idempotency slot. -/
def matchesKey (cid k : String) (j : JobRec) : Bool :=
  decide (j.customerId = cid) && decide (j.idempotencyKey = some k)

/-- Modelled from the spec: the NotificationsService job-creation path — the
code that inserts into `jobs` under the unique index
`jobs_customer_id_idempotency_key_key` and resolves duplicates — is not among
the source files; only the migration declaring the index
(src/unnamed/part_006) is.  Following §4.2 of the spec: with no key a new job
is always created; with a key, creation is attempted under the storage-level
uniqueness constraint on `(tenant, key)`, and a constraint violation on insert
is treated as "already exists" and resolved by lookup of the existing job
rather than propagated as an error.  `fresh` is the id the new row would get. -/
def resolveSubmission (store : List JobRec) (cid : String) (key : Option String)
    (fresh : Nat) : Nat × List JobRec :=
  match key with
  | none => (fresh, store ++ [{ customerId := cid, idempotencyKey := none, jobId := fresh }])
  | some k =>
    match store.find? (matchesKey cid k) with
    | some j => (j.jobId, store)
    | none => (fresh, store ++ [{ customerId := cid, idempotencyKey := some k, jobId := fresh }])

/-! ## Supporting lemmas on the retry driver -/

theorem runAttemptsFrom_succ (proc : Nat → ProcessResult) (m f : Nat) :
    runAttemptsFrom proc m (f + 1) =
      if (proc m).threw && decide (m + 1 < MAX_ATTEMPTS) then
        { attemptNumber := m + 1,
          delayBefore := if m = 0 then 0 else backoffDelay m,
          result := proc m } :: runAttemptsFrom proc (m + 1) f
      else
        [{ attemptNumber := m + 1,
           delayBefore := if m = 0 then 0 else backoffDelay m,
           result := proc m }] := rfl

theorem runAttemptsFrom_length_le (proc : Nat → ProcessResult) :
    ∀ f m, (runAttemptsFrom proc m f).length ≤ f := by
  intro f
  induction f with
  | zero => intro m; simp [runAttemptsFrom]
  | succ f ih =>
    intro m
    rw [runAttemptsFrom_succ]
    by_cases h : ((proc m).threw && decide (m + 1 < MAX_ATTEMPTS)) = true
    · simp only [h, if_pos, List.length_cons]
      exact Nat.succ_le_succ (ih (m + 1))
    · simp only [eq_false_of_ne_true h, if_false, List.length_singleton]
      exact Nat.succ_le_succ (Nat.zero_le f)

/-- The three possible attempt traces of one job under `attempts: 3`. -/
theorem runAttempts_shape (proc : Nat → ProcessResult) :
    runAttemptsFrom proc 0 MAX_ATTEMPTS =
      if (proc 0).threw then
        if (proc 1).threw then
          [{ attemptNumber := 1, delayBefore := 0, result := proc 0 },
           { attemptNumber := 2, delayBefore := 2000, result := proc 1 },
           { attemptNumber := 3, delayBefore := 4000, result := proc 2 }]
        else
          [{ attemptNumber := 1, delayBefore := 0, result := proc 0 },
           { attemptNumber := 2, delayBefore := 2000, result := proc 1 }]
      else
        [{ attemptNumber := 1, delayBefore := 0, result := proc 0 }] := by
  have h3 : MAX_ATTEMPTS = 2 + 1 := rfl
  rw [h3, runAttemptsFrom_succ, runAttemptsFrom_succ, runAttemptsFrom_succ]
  have d1 : backoffDelay 1 = 2000 := by norm_num [backoffDelay]
  have d2 : backoffDelay 2 = 4000 := by norm_num [backoffDelay]
  cases h0 : (proc 0).threw <;> cases h1 : (proc 1).threw <;>
    simp [h0, h1, MAX_ATTEMPTS, d1, d2]

theorem webhookProcess_retryable (jobId : String) (m : Nat) (o : HttpOutcome)
    (e : AttemptError) (h : axiosResult o = Except.error e)
    (hr : shouldRetryWebhook e = true) (hm : m < 2) :
    (webhookProcess jobId m o noFaults).threw = true ∧
    (webhookProcess jobId m o noFaults).dlqEntry = none ∧
    (webhookProcess jobId m o noFaults).jobStatus = JobStatus.processing := by
  have h2 : ¬ (2 ≤ m) := by omega
  simp [webhookProcess, h, noFaults, hr, h2]

theorem webhookProcess_dead_letter (jobId : String) (m : Nat) (o : HttpOutcome)
    (e : AttemptError) (h : axiosResult o = Except.error e)
    (hd : shouldRetryWebhook e = false ∨ 2 ≤ m) :
    (webhookProcess jobId m o noFaults).dlqEntry =
      some { jobId := jobId, error := some e.message,
             priority := QUEUE_PRIORITIES.LOW } ∧
    (webhookProcess jobId m o noFaults).jobStatus = JobStatus.failed ∧
    (webhookProcess jobId m o noFaults).threw = shouldRetryWebhook e := by
  rcases hd with hd | hd
  · simp [webhookProcess, h, noFaults, hd, moveToDeadLetterQueue]
  · have h2 : (2 : Nat) ≤ m := hd
    cases hr : shouldRetryWebhook e <;>
      simp [webhookProcess, h, noFaults, hr, h2, moveToDeadLetterQueue]

theorem emailProcess_failed_fields (data : EmailJobData) (m : Nat) (msg : String) :
    (emailProcess data m (EmailOutcome.failed msg) noFaults).result.threw = true ∧
    (m < 2 →
      (emailProcess data m (EmailOutcome.failed msg) noFaults).result.dlqEntry = none) ∧
    (2 ≤ m →
      (emailProcess data m (EmailOutcome.failed msg) noFaults).result.dlqEntry =
        some { jobId := data.jobId, error := some msg,
               priority := QUEUE_PRIORITIES.LOW } ∧
      (emailProcess data m (EmailOutcome.failed msg) noFaults).result.jobStatus =
        JobStatus.failed) := by
  by_cases hm : 2 ≤ m
  · refine ⟨?_, fun hlt => absurd hm (by omega), fun _ => ?_⟩ <;>
      simp [emailProcess, noFaults, hm, moveToDeadLetterQueue]
  · refine ⟨?_, fun _ => ?_, fun hge => absurd hge hm⟩ <;>
      simp [emailProcess, noFaults, hm]

/-! ## Claim theorems -/

/-- C1: a delivery attempt that fails retryably while fewer than 3 attempts have
been made rethrows, so BullMQ re-enqueues the same job in its original lane with
an exponential backoff delay of base 2000 ms doubling per attempt (2000 ms
before attempt 2, 4000 ms before attempt 3); a retryable failure on the third
attempt, or a terminal failure at any attempt count, records a dead-letter entry
with LOW priority and the failure reason and marks the job FAILED; no job trace
ever contains a 4th attempt.  The same bound and dead-letter behavior hold for
email jobs, whose failures always rethrow. -/
theorem c1_retry_backoff_dead_letter (jobId : String) (outcomes : Nat → HttpOutcome) :
    (runWebhookJob jobId outcomes).length ≤ 3 ∧
    runWebhookJob jobId outcomes =
      (if (webhookProcess jobId 0 (outcomes 0) noFaults).threw then
        if (webhookProcess jobId 1 (outcomes 1) noFaults).threw then
          [{ attemptNumber := 1, delayBefore := 0,
             result := webhookProcess jobId 0 (outcomes 0) noFaults },
           { attemptNumber := 2, delayBefore := backoffDelay 1,
             result := webhookProcess jobId 1 (outcomes 1) noFaults },
           { attemptNumber := 3, delayBefore := backoffDelay 2,
             result := webhookProcess jobId 2 (outcomes 2) noFaults }]
        else
          [{ attemptNumber := 1, delayBefore := 0,
             result := webhookProcess jobId 0 (outcomes 0) noFaults },
           { attemptNumber := 2, delayBefore := backoffDelay 1,
             result := webhookProcess jobId 1 (outcomes 1) noFaults }]
      else
        [{ attemptNumber := 1, delayBefore := 0,
           result := webhookProcess jobId 0 (outcomes 0) noFaults }]) ∧
    backoffDelay 1 = 2000 ∧ backoffDelay 2 = 4000 ∧
    (∀ k, backoffDelay (k + 2) = 2 * backoffDelay (k + 1)) ∧
    (∀ m e, axiosResult (outcomes m) = Except.error e →
      (shouldRetryWebhook e = true → m < 2 →
        (webhookProcess jobId m (outcomes m) noFaults).threw = true ∧
        (webhookProcess jobId m (outcomes m) noFaults).dlqEntry = none) ∧
      (shouldRetryWebhook e = false ∨ 2 ≤ m →
        (webhookProcess jobId m (outcomes m) noFaults).dlqEntry =
          some { jobId := jobId, error := some e.message,
                 priority := QUEUE_PRIORITIES.LOW } ∧
        (webhookProcess jobId m (outcomes m) noFaults).jobStatus = JobStatus.failed ∧
        (webhookProcess jobId m (outcomes m) noFaults).threw = shouldRetryWebhook e)) ∧
    (∀ data eoutcomes, (runEmailJob data eoutcomes).length ≤ 3) ∧
    (∀ data m msg,
      (emailProcess data m (EmailOutcome.failed msg) noFaults).result.threw = true ∧
      (m < 2 →
        (emailProcess data m (EmailOutcome.failed msg) noFaults).result.dlqEntry = none) ∧
      (2 ≤ m →
        (emailProcess data m (EmailOutcome.failed msg) noFaults).result.dlqEntry =
          some { jobId := data.jobId, error := some msg,
                 priority := QUEUE_PRIORITIES.LOW } ∧
        (emailProcess data m (EmailOutcome.failed msg) noFaults).result.jobStatus =
          JobStatus.failed)) := by
  refine ⟨runAttemptsFrom_length_le _ MAX_ATTEMPTS 0, ?_,
    by norm_num [backoffDelay], by norm_num [backoffDelay], ?_, ?_, ?_, ?_⟩
  · have hs := runAttempts_shape (fun m => webhookProcess jobId m (outcomes m) noFaults)
    have d1 : backoffDelay 1 = 2000 := by norm_num [backoffDelay]
    have d2 : backoffDelay 2 = 4000 := by norm_num [backoffDelay]
    rw [d1, d2]
    exact hs
  · intro k
    simp only [backoffDelay, Nat.add_sub_cancel]
    have he : k + 2 - 1 = k + 1 := by omega
    rw [he, pow_succ]
    ring
  · intro m e h
    exact ⟨fun hr hm => ⟨(webhookProcess_retryable jobId m (outcomes m) e h hr hm).1,
        (webhookProcess_retryable jobId m (outcomes m) e h hr hm).2.1⟩,
      fun hd => webhookProcess_dead_letter jobId m (outcomes m) e h hd⟩
  · intro data eoutcomes
    exact runAttemptsFrom_length_le _ MAX_ATTEMPTS 0
  · intro data m msg
    exact emailProcess_failed_fields data m msg

/-- Witness for C1: a webhook target answering 503 on every attempt is tried
exactly 3 times with delays 0, 2000, 4000 ms, and the third attempt records a
LOW-priority dead-letter entry with the axios error message. -/
theorem c1_retry_backoff_dead_letter_witness :
    (runWebhookJob "job-1" (fun _ => HttpOutcome.response 503 "oops")).length ≤ 3 ∧
    (webhookProcess "job-1" 2 (HttpOutcome.response 503 "oops") noFaults).dlqEntry =
      some { jobId := "job-1", error := some (axiosStatusMessage 503),
             priority := QUEUE_PRIORITIES.LOW } ∧
    (webhookProcess "job-1" 0 (HttpOutcome.response 503 "oops") noFaults).threw = true := by
  have h := c1_retry_backoff_dead_letter "job-1" (fun _ => HttpOutcome.response 503 "oops")
  refine ⟨h.1, ?_, ?_⟩
  · have hd := (h.2.2.2.2.2.1 2 (AttemptError.httpError 503 "oops") rfl).2
      (Or.inr (by norm_num))
    exact hd.1
  · have hr := (h.2.2.2.2.2.1 0 (AttemptError.httpError 503 "oops") rfl).1 rfl
      (by norm_num)
    exact hr.1

/-- C2: a webhook attempt succeeds iff the response status is in [200,300); a
webhook failure carrying a response with status in [400,500) is terminal
(`shouldRetryWebhook` is false and `process` returns without rethrowing, at any
attempt count); every other webhook failure — other statuses, timeouts,
connection errors — and every email failure is classified retryable (the worker
rethrows). -/
theorem c2_failure_classification :
    (∀ st body, webhookAttemptSucceeds (HttpOutcome.response st body) = true ↔
      200 ≤ st ∧ st < 300) ∧
    (∀ msg, webhookAttemptSucceeds (HttpOutcome.netError msg) = false) ∧
    (∀ st body, 400 ≤ st → st < 500 →
      shouldRetryWebhook (AttemptError.httpError st body) = false ∧
      ∀ m jobId, (webhookProcess jobId m (HttpOutcome.response st body) noFaults).threw =
        false) ∧
    (∀ st body, ¬ (400 ≤ st ∧ st < 500) →
      shouldRetryWebhook (AttemptError.httpError st body) = true) ∧
    (∀ msg, shouldRetryWebhook (AttemptError.netError msg) = true) ∧
    (∀ data m msg,
      (emailProcess data m (EmailOutcome.failed msg) noFaults).result.threw = true) := by
  refine ⟨?_, ?_, ?_, ?_, fun msg => rfl, ?_⟩
  · intro st body
    simp [webhookAttemptSucceeds, axiosResult, validateStatus]
    constructor
    · intro h
      by_contra hc
      rw [if_neg ?_] at h
      · simp at h
      · simpa [Decidable.not_and_iff_or_not] using hc
    · intro h
      rw [if_pos (by simpa using h)]
  · intro msg; rfl
  · intro st body h4 h5
    have hv : validateStatus st = false := by
      simp [validateStatus]; omega
    have hr : shouldRetryWebhook (AttemptError.httpError st body) = false := by
      simp [shouldRetryWebhook, h4, h5]
    refine ⟨hr, fun m jobId => ?_⟩
    have he : axiosResult (HttpOutcome.response st body) =
        Except.error (AttemptError.httpError st body) := by
      simp [axiosResult, hv]
    exact (webhookProcess_dead_letter jobId m _ _ he (Or.inl hr)).2.2.trans hr
  · intro st body h
    simp [shouldRetryWebhook]
    omega
  · intro data m msg
    exact (emailProcess_failed_fields data m msg).1

/-- Witness for C2: status 204 succeeds, 301 does not; 404 is terminal and not
rethrown even on the first attempt; 503, a network timeout, and an email
provider failure are retryable. -/
theorem c2_failure_classification_witness :
    webhookAttemptSucceeds (HttpOutcome.response 204 "") = true ∧
    webhookAttemptSucceeds (HttpOutcome.response 301 "") = false ∧
    shouldRetryWebhook (AttemptError.httpError 404 "nf") = false ∧
    (webhookProcess "j" 0 (HttpOutcome.response 404 "nf") noFaults).threw = false ∧
    shouldRetryWebhook (AttemptError.httpError 503 "x") = true ∧
    shouldRetryWebhook (AttemptError.netError "timeout of 30000ms exceeded") = true ∧
    (emailProcess ⟨"j", "c", "a@b.com", "s", "b", none⟩ 0
      (EmailOutcome.failed "provider down") noFaults).result.threw = true := by
  have h := c2_failure_classification
  refine ⟨(h.1 204 "").2 (by norm_num), ?_, (h.2.2.1 404 "nf" (by norm_num) (by norm_num)).1,
    (h.2.2.1 404 "nf" (by norm_num) (by norm_num)).2 0 "j",
    h.2.2.2.1 503 "x" (by omega), h.2.2.2.2.1 "timeout of 30000ms exceeded",
    h.2.2.2.2.2 _ 0 "provider down"⟩
  · have := h.1 301 ""
    by_contra hc
    have hb : webhookAttemptSucceeds (HttpOutcome.response 301 "") = true := by
      revert hc
      cases webhookAttemptSucceeds (HttpOutcome.response 301 "") <;> simp
    have := this.1 hb
    omega

theorem quotaRun_within_cycle (now : Nat) :
    ∀ (n : Nat) (c : Customer), now ≤ c.usageResetAt →
      c.usageCount + n ≤ c.monthlyLimit →
      ((quotaRun now c n).1.all fun d => d = GateDecision.allowed) = true ∧
      (quotaRun now c n).2.usageCount = c.usageCount + n := by
  intro n
  induction n with
  | zero => intro c _ _; simp [quotaRun]
  | succ n ih =>
    intro c hcyc hle
    have hnr : ¬ (c.usageResetAt < now) := by omega
    have hlt : ¬ (c.monthlyLimit ≤ c.usageCount) := by omega
    have hstep : quotaCanActivate now c =
        (GateDecision.allowed, { c with usageCount := c.usageCount + 1 }) := by
      simp [quotaCanActivate, hnr, hlt]
    have hrec := ih { c with usageCount := c.usageCount + 1 } (by simpa using hcyc)
      (by simp; omega)
    constructor
    · simp [quotaRun, hstep, hrec.1]
    · simp [quotaRun, hstep, hrec.2]; omega

/-- C3: within one billing cycle (no reset boundary crossed), every successful
admission through `QuotaGuard` increments the usage counter by exactly one, so
N successful admissions from usage 0 leave `usageCount = N`; a customer whose
usage has reached the monthly limit is denied with a 403 carrying current
usage, limit and reset date, and the state is unchanged; after any allowed
admission the counter is at most the limit. -/
theorem c3_usage_counter_invariant (c : Customer) (now N : Nat)
    (hcyc : now ≤ c.usageResetAt) (h0 : c.usageCount = 0)
    (hN : N ≤ c.monthlyLimit) :
    (((quotaRun now c N).1.all fun d => d = GateDecision.allowed) = true ∧
      (quotaRun now c N).2.usageCount = N) ∧
    (∀ cf : Customer, now ≤ cf.usageResetAt → cf.usageCount = cf.monthlyLimit →
      quotaCanActivate now cf =
        (GateDecision.quotaExceeded cf.usageCount cf.monthlyLimit cf.usageResetAt, cf)) ∧
    (∀ cf : Customer, now ≤ cf.usageResetAt →
      (quotaCanActivate now cf).1 = GateDecision.allowed →
      (quotaCanActivate now cf).2.usageCount = cf.usageCount + 1 ∧
      (quotaCanActivate now cf).2.usageCount ≤ cf.monthlyLimit) := by
  refine ⟨?_, ?_, ?_⟩
  · have := quotaRun_within_cycle now N c hcyc (by omega)
    exact ⟨this.1, by rw [this.2, h0]; omega⟩
  · intro cf hc hful
    have hnr : ¬ (cf.usageResetAt < now) := by omega
    have hge : cf.monthlyLimit ≤ cf.usageCount := by omega
    simp [quotaCanActivate, hnr, hge]
  · intro cf hc hallow
    have hnr : ¬ (cf.usageResetAt < now) := by omega
    by_cases hge : cf.monthlyLimit ≤ cf.usageCount
    · exfalso
      simp [quotaCanActivate, hnr, hge] at hallow
    · constructor
      · simp [quotaCanActivate, hnr, hge]
      · simp [quotaCanActivate, hnr, hge]; omega

/-- Witness for C3: a fresh customer with limit 200 admitted 3 times at time 50
inside the cycle ends at usage 3 with all requests allowed, and a full customer
is denied with the 403 payload. -/
theorem c3_usage_counter_invariant_witness :
    (((quotaRun 50 ⟨0, 200, 100, 0⟩ 3).1.all fun d => d = GateDecision.allowed) = true ∧
      (quotaRun 50 ⟨0, 200, 100, 0⟩ 3).2.usageCount = 3) ∧
    quotaCanActivate 50 ⟨200, 200, 100, 0⟩ =
      (GateDecision.quotaExceeded 200 200 100, ⟨200, 200, 100, 0⟩) := by
  have h := c3_usage_counter_invariant ⟨0, 200, 100, 0⟩ 50 3 (by norm_num) rfl
    (by norm_num)
  exact ⟨h.1, h.2.1 ⟨200, 200, 100, 0⟩ (by norm_num) rfl⟩

/-- C4 counterexample: the claim fails twice on the code.  (i) At the exact
boundary `now = usageResetAt` (so `now ≥ usageResetAt`), `QuotaGuard` does NOT
reset — the source condition is the strict `usageResetAt < now` — and a full
customer is denied on the pre-reset usage count.  (ii) `ApiKeyGuard`, which
runs first, evaluates `usageCount >= monthlyLimit` BEFORE its lazy-reset block,
so even strictly after the boundary a full customer is denied there on the
pre-reset usage count. -/
theorem c4_lazy_reset_counterexample :
    (quotaCanActivate 1700000000000 ⟨200, 200, 1700000000000, 0⟩).1 =
      GateDecision.quotaExceeded 200 200 1700000000000 ∧
    (quotaCanActivate 1700000000000 ⟨200, 200, 1700000000000, 0⟩).2.usageCount = 200 ∧
    (apiKeyGuardCheck 1700000001000 1701388800000 ⟨200, 200, 1700000000000, 0⟩).1 =
      GateDecision.quotaExceeded 200 200 1700000000000 ∧
    (apiKeyGuardCheck 1700000001000 1701388800000 ⟨200, 200, 1700000000000, 0⟩).2 =
      ⟨200, 200, 1700000000000, 0⟩ := by
  refine ⟨?_, ?_, ?_, ?_⟩ <;> decide

/-- C4 (amended): in `QuotaGuard`, a request arriving strictly after the
boundary (`usageResetAt < now`) resets usage to 0 and advances `usageResetAt`
to midnight UTC on the first of the next month before the limit is evaluated,
and (whenever the limit is positive) is admitted rather than denied on the
pre-reset usage count; at `now = usageResetAt` exactly no reset occurs, and in
`ApiKeyGuard` the limit check precedes the reset, so a full customer can still
be denied on pre-reset usage there. -/
theorem c4_lazy_reset_amended (c : Customer) (now : Nat)
    (hlt : c.usageResetAt < now) (hpos : 0 < c.monthlyLimit) :
    quotaCanActivate now c =
      (GateDecision.allowed,
        { usageCount := 1, monthlyLimit := c.monthlyLimit,
          usageResetAt := getNextResetDate now, billingCycleStartAt := now }) := by
  have h0 : ¬ (c.monthlyLimit ≤ 0) := by omega
  simp [quotaCanActivate, hlt, h0]

/-- Witness for C4 (amended): a customer at usage 150/200 whose reset time has
passed is admitted at `now = 2023-11-14T22:13:20Z` with usage reset to 0 then
incremented to 1, and `usageResetAt` advanced to 2023-12-01T00:00:00Z UTC. -/
theorem c4_lazy_reset_amended_witness :
    quotaCanActivate 1700000000000 ⟨150, 200, 1690000000000, 0⟩ =
      (GateDecision.allowed, ⟨1, 200, 1701388800000, 1700000000000⟩) := by
  have h := c4_lazy_reset_amended ⟨150, 200, 1690000000000, 0⟩ 1700000000000
    (by norm_num) (by norm_num)
  rw [h]
  decide

theorem rateStateAfter_window (limit : Nat) (times : Nat → Nat) (hpos : 0 < limit)
    (hwin : ∀ i, i ≤ limit → times i < times 0 + 60) :
    ∀ k, k ≤ limit →
      rateStateAfter limit times k =
        (if k = 0 then none else some (k, some (times 0 + 60))) := by
  intro k
  induction k with
  | zero => intro _; rfl
  | succ k ih =>
    intro hk
    have hk' : k ≤ limit := by omega
    have hst := ih hk'
    by_cases h0 : k = 0
    · subst h0
      have hnz : ¬ (limit ≤ 0) := by omega
      simp [rateStateAfter, hst, checkRateLimit, rateGet, rateWriteStep, redisSet1, hnz]
    · have htk : times k < times 0 + 60 := hwin k hk'
      have h1 : ¬ (limit ≤ k) := by omega
      simp [rateStateAfter, hst, checkRateLimit, rateGet, rateWriteStep, redisIncr,
        h0, htk, h1]

/-- C5: starting from an absent counter, the first request in a window sets the
counter to 1 with a 60-second expiry; each further request inside the window
increments it (the counter reads `k` after `k` admissions); the first
`rateLimit` requests are all admitted and the `(rateLimit + 1)`-th is denied,
the guard converting the denial into an HTTP 429 carrying the limit; and any
error from the counter store makes the check return allowed with the store
untouched (fail open). -/
theorem c5_rate_limit_window (limit : Nat) (times : Nat → Nat)
    (hpos : 0 < limit) (hwin : ∀ i, i ≤ limit → times i < times 0 + 60) :
    checkRateLimit limit (times 0) none = (true, some (1, some (times 0 + 60))) ∧
    (∀ k, k ≤ limit → rateStateAfter limit times k =
      (if k = 0 then none else some (k, some (times 0 + 60)))) ∧
    (∀ k, k < limit → rateDecision limit times k = true) ∧
    rateDecision limit times limit = false ∧
    customerRateLimitGuard false limit (times limit) (rateStateAfter limit times limit) =
      (GateDecision.rateLimited limit, rateStateAfter limit times limit) ∧
    (GateDecision.rateLimited limit).httpStatus = some 429 ∧
    (∀ fl t : Nat, ∀ st : RateStore, checkRateLimitF true fl t st = (true, st)) := by
  have hstates := rateStateAfter_window limit times hpos hwin
  have hnz : ¬ (limit ≤ 0) := by omega
  have hdeny : rateDecision limit times limit = false := by
    have hs := hstates limit le_rfl
    have h0 : limit ≠ 0 := by omega
    have htl : times limit < times 0 + 60 := hwin limit le_rfl
    simp [rateDecision, hs, h0, checkRateLimit, rateGet, rateWriteStep, htl]
  refine ⟨?_, hstates, ?_, hdeny, ?_, rfl, fun fl t st => rfl⟩
  · simp [checkRateLimit, rateGet, rateWriteStep, redisSet1, hnz]
  · intro k hk
    have hs := hstates k (by omega)
    by_cases h0 : k = 0
    · subst h0
      simp [rateDecision, hs, checkRateLimit, rateGet, rateWriteStep, hnz]
    · have htk : times k < times 0 + 60 := hwin k (by omega)
      have h1 : ¬ (limit ≤ k) := by omega
      simp [rateDecision, hs, h0, checkRateLimit, rateGet, rateWriteStep, htk, h1]
  · simp [customerRateLimitGuard, checkRateLimitF]
    have hs := hstates limit le_rfl
    have h0 : limit ≠ 0 := by omega
    have htl : times limit < times 0 + 60 := hwin limit le_rfl
    simp [hs, h0, checkRateLimit, rateGet, rateWriteStep, htl]

/-- Witness for C5: with limit 2 and requests at seconds 0, 10, 20, the first
two are admitted with the counter reading 1 then 2, and the third is denied
with a 429; a failing store admits the request. -/
theorem c5_rate_limit_window_witness :
    rateDecision 2 (fun i => 10 * i) 0 = true ∧
    rateDecision 2 (fun i => 10 * i) 1 = true ∧
    rateDecision 2 (fun i => 10 * i) 2 = false ∧
    rateStateAfter 2 (fun i => 10 * i) 2 = some (2, some 60) ∧
    checkRateLimitF true 2 5 none = (true, none) := by
  have h := c5_rate_limit_window 2 (fun i => 10 * i) (by norm_num)
    (by intro i hi; interval_cases i <;> norm_num)
  refine ⟨h.2.2.1 0 (by norm_num), h.2.2.1 1 (by norm_num), h.2.2.2.1, ?_, ?_⟩
  · have := h.2.1 2 le_rfl
    simpa using this
  · exact h.2.2.2.2.2.2 2 5 none

/-- C6: submitting twice with the same idempotency key for the same tenant
yields the same job identity both times and creates exactly one job — the
second insert hits the `(customer_id, idempotency_key)` uniqueness constraint
and is resolved by lookup of the existing row, not surfaced as an error — and
a submission without a key always creates a new job. -/
theorem c6_idempotent_submission (store : List JobRec) (cid k : String)
    (f1 f2 : Nat) (hnew : store.find? (matchesKey cid k) = none) :
    (resolveSubmission store cid (some k) f1).1 = f1 ∧
    (resolveSubmission store cid (some k) f1).2.length = store.length + 1 ∧
    (resolveSubmission (resolveSubmission store cid (some k) f1).2 cid (some k) f2).1 =
      f1 ∧
    (resolveSubmission (resolveSubmission store cid (some k) f1).2 cid (some k) f2).2 =
      (resolveSubmission store cid (some k) f1).2 ∧
    (∀ (s : List JobRec) (f3 : Nat), resolveSubmission s cid none f3 =
      (f3, s ++ [{ customerId := cid, idempotencyKey := none, jobId := f3 }])) := by
  have hrow : matchesKey cid k
      { customerId := cid, idempotencyKey := some k, jobId := f1 } = true := by
    simp [matchesKey]
  have hfirst : resolveSubmission store cid (some k) f1 =
      (f1, store ++ [{ customerId := cid, idempotencyKey := some k, jobId := f1 }]) := by
    simp [resolveSubmission, hnew]
  refine ⟨by rw [hfirst], by rw [hfirst]; simp, ?_, ?_, fun s f3 => rfl⟩
  · rw [hfirst]
    simp [resolveSubmission, List.find?_append, hnew, hrow]
  · rw [hfirst]
    simp [resolveSubmission, List.find?_append, hnew, hrow]

/-- Witness for C6: from an empty store, tenant `c1` submitting key `k1` twice
receives job id 7 both times and the store holds exactly the one job. -/
theorem c6_idempotent_submission_witness :
    (resolveSubmission [] "c1" (some "k1") 7).1 = 7 ∧
    (resolveSubmission (resolveSubmission [] "c1" (some "k1") 7).2 "c1"
      (some "k1") 9).1 = 7 ∧
    (resolveSubmission (resolveSubmission [] "c1" (some "k1") 7).2 "c1"
      (some "k1") 9).2.length = 1 := by
  have h := c6_idempotent_submission [] "c1" "k1" 7 9 rfl
  exact ⟨h.1, h.2.2.1, by rw [h.2.2.2.1]; exact h.2.1⟩

/-- C7 counterexample: the `deliveryLog.create` calls inside the catch blocks
are NOT guarded, so a ledger-write failure on a third webhook attempt
propagates out of `process` before the retry/dead-letter code runs: the job is
neither moved to the dead-letter queue nor marked FAILED (it stays PROCESSING),
whereas the fault-free run of the same attempt records the dead-letter entry.
The claim that a ledger-persistence failure "never prevents the retry/dead-
letter decision or the job's terminal-state transition" is therefore false. -/
theorem c7_side_effect_counterexample :
    (webhookProcess "j" 2 (HttpOutcome.response 503 "boom")
      { ledgerCreateFails := true, dlqAddFails := false }).threw = true ∧
    (webhookProcess "j" 2 (HttpOutcome.response 503 "boom")
      { ledgerCreateFails := true, dlqAddFails := false }).dlqEntry = none ∧
    (webhookProcess "j" 2 (HttpOutcome.response 503 "boom")
      { ledgerCreateFails := true, dlqAddFails := false }).jobStatus =
      JobStatus.processing ∧
    (webhookProcess "j" 2 (HttpOutcome.response 503 "boom") noFaults).dlqEntry =
      some { jobId := "j", error := some (axiosStatusMessage 503), priority := 1 } ∧
    (webhookProcess "j" 2 (HttpOutcome.response 503 "boom") noFaults).jobStatus =
      JobStatus.failed := by
  refine ⟨?_, ?_, ?_, ?_, ?_⟩ <;> decide

/-- C7 (amended): a failure inside `moveToDeadLetterQueue` (the dead-letter
add) is caught and logged within that method and never crashes the worker — on
both workers it changes nothing about the attempt except the dead-letter entry
itself: the job-status transition, the rethrow decision and the ledger entry
are exactly those of the fault-free run.  A ledger-write failure, by contrast,
propagates (see the counterexample). -/
theorem c7_dlq_failure_isolated (jobId : String) (m : Nat) (o : HttpOutcome)
    (b : Bool) (data : EmailJobData) (eo : EmailOutcome) :
    ((webhookProcess jobId m o { ledgerCreateFails := false, dlqAddFails := b }).jobStatus =
        (webhookProcess jobId m o noFaults).jobStatus ∧
      (webhookProcess jobId m o { ledgerCreateFails := false, dlqAddFails := b }).threw =
        (webhookProcess jobId m o noFaults).threw ∧
      (webhookProcess jobId m o { ledgerCreateFails := false, dlqAddFails := b }).ledgerEntry =
        (webhookProcess jobId m o noFaults).ledgerEntry) ∧
    ((emailProcess data m eo { ledgerCreateFails := false, dlqAddFails := b }).result.jobStatus =
        (emailProcess data m eo noFaults).result.jobStatus ∧
      (emailProcess data m eo { ledgerCreateFails := false, dlqAddFails := b }).result.threw =
        (emailProcess data m eo noFaults).result.threw ∧
      (emailProcess data m eo { ledgerCreateFails := false, dlqAddFails := b }).result.ledgerEntry =
        (emailProcess data m eo noFaults).result.ledgerEntry) := by
  cases b with
  | false => exact ⟨⟨rfl, rfl, rfl⟩, rfl, rfl, rfl⟩
  | true =>
    constructor
    · cases hax : axiosResult o with
      | ok v =>
        refine ⟨?_, ?_, ?_⟩ <;> simp [webhookProcess, hax, noFaults]
      | error e =>
        refine ⟨?_, ?_, ?_⟩ <;>
          simp [webhookProcess, hax, noFaults, moveToDeadLetterQueue] <;>
          split_ifs <;> rfl
    · cases eo with
      | accepted resp =>
        refine ⟨?_, ?_, ?_⟩ <;> simp [emailProcess, noFaults]
      | failed msg =>
        refine ⟨?_, ?_, ?_⟩ <;>
          simp [emailProcess, noFaults, moveToDeadLetterQueue] <;>
          split_ifs <;> rfl

/-- C8: the legacy `@nestjs/bull` webhook worker passes `error.mesnsage` — a
misspelling of `message`, which evaluates to `undefined` in JS — to
`moveToDeadLetterQueue`, so on a failing 404 delivery this variant records an
undefined failure reason while the actual axios message is
"Request failed with status code 404"; the current `@nestjs/bullmq` processor
records the actual message, which is the contract the spec states. -/
theorem c8_dead_letter_reason_bug :
    (processWebhookJobLegacy "job-1" 0 (HttpOutcome.response 404 "not found")).1 =
      some { jobId := "job-1", error := none, priority := 1 } ∧
    (AttemptError.httpError 404 "not found").message =
      "Request failed with status code 404" ∧
    (webhookProcess "job-1" 0 (HttpOutcome.response 404 "not found") noFaults).dlqEntry =
      some { jobId := "job-1",
             error := some "Request failed with status code 404",
             priority := 1 } := by
  refine ⟨?_, ?_, ?_⟩ <;> decide

/-- C9 counterexample: the rate counter is updated by a `redis.get` followed by
a separate `set`/`INCR` chosen from the value read.  Two same-tenant requests
racing on a fresh window, interleaved read-read-write-write, are BOTH admitted
while the counter ends at 1 — a lost update — whereas the two requests run
sequentially leave the counter at 2.  The claim that both gate counters are
updated only through an atomic-increment primitive, never via separate
read-then-write steps, is therefore false for the rate counter. -/
theorem c9_rate_counter_race_counterexample :
    twoRacingRateRequests 10 0 = (true, true, 1) ∧
    (checkRateLimit 10 0 (checkRateLimit 10 0 none).2).2 = some (2, some 60) := by
  exact ⟨rfl, rfl⟩

/-- C9 (amended): the quota usage counter is written with the prisma atomic
`increment: 1` — a single storage-level increment, so two racing admissions
always advance it by two and never lose an update — while the rate counter's
read-then-write update can lose one: the racing schedule admits both requests
but records a count of 1. -/
theorem c9_quota_atomic_rate_not :
    (∀ u : Nat, dbIncrement (dbIncrement u) = u + 2) ∧
    twoRacingRateRequests 10 0 = (true, true, 1) ∧
    (∀ limit t : Nat, ∀ st : RateStore,
      checkRateLimit limit t st = rateWriteStep limit t (rateGet t st) st) := by
  exact ⟨fun u => rfl, rfl, fun limit t st => rfl⟩

/-- C10 counterexample: the worker computes the provider `from` with JS `||`,
so a supplied empty-string `from` — a falsy value — is replaced by the default
rather than passed unchanged, contradicting "when a `from` address is supplied,
it is passed to the provider unchanged" at that input. -/
theorem c10_from_default_counterexample :
    (emailProcess ⟨"j", "c", "a@b.com", "s", "b", some ""⟩ 0
      (EmailOutcome.accepted "ok") noFaults).sendCall.fromAddr =
      "noreply@notifyhub.com" := by
  decide

/-- C10 (amended): an email job submitted without a `from` address — or with
the falsy empty string, which JS `||` treats the same way — hands the provider
`from = noreply@notifyhub.com`; a supplied non-empty `from` is passed to the
provider unchanged. -/
theorem c10_from_default (data : EmailJobData) (m : Nat) (o : EmailOutcome)
    (env : FaultEnv) :
    (data.fromAddr = none →
      (emailProcess data m o env).sendCall.fromAddr = "noreply@notifyhub.com") ∧
    (data.fromAddr = some "" →
      (emailProcess data m o env).sendCall.fromAddr = "noreply@notifyhub.com") ∧
    (∀ s, data.fromAddr = some s → s ≠ "" →
      (emailProcess data m o env).sendCall.fromAddr = s) := by
  have hcall : (emailProcess data m o env).sendCall.fromAddr =
      effectiveFrom data.fromAddr := by
    cases o with
    | accepted resp =>
      by_cases hl : env.ledgerCreateFails <;> simp [emailProcess, hl]
    | failed msg =>
      by_cases hl : env.ledgerCreateFails
      · simp [emailProcess, hl]
      · by_cases hm : 2 ≤ m <;> simp [emailProcess, hl, hm]
  refine ⟨fun h => ?_, fun h => ?_, fun s h hs => ?_⟩
  · rw [hcall, h]; rfl
  · rw [hcall, h]; simp [effectiveFrom]
  · rw [hcall, h]; simp [effectiveFrom, hs]

/-- Witness for C10 (amended): a job without `from` is sent from the default
address, and one with `from = sender@acme.io` is sent from exactly that. -/
theorem c10_from_default_witness :
    (emailProcess ⟨"j", "c", "a@b.com", "s", "b", none⟩ 0
      (EmailOutcome.accepted "ok") noFaults).sendCall.fromAddr =
      "noreply@notifyhub.com" ∧
    (emailProcess ⟨"j", "c", "a@b.com", "s", "b", some "sender@acme.io"⟩ 0
      (EmailOutcome.accepted "ok") noFaults).sendCall.fromAddr =
      "sender@acme.io" := by
  refine ⟨(c10_from_default ⟨"j", "c", "a@b.com", "s", "b", none⟩ 0
      (EmailOutcome.accepted "ok") noFaults).1 rfl, ?_⟩
  exact (c10_from_default ⟨"j", "c", "a@b.com", "s", "b", some "sender@acme.io"⟩ 0
      (EmailOutcome.accepted "ok") noFaults).2.2 "sender@acme.io" rfl (by decide)

end NotifyHub
